import Mathlib

/-!
Verification of the PRTG multi-server monitor (files `prtg_monitor.py`,
`email_sender.py`) against its natural-language specification.

The embedding models the status classifier `_check_server_status`, the
per-server debounce logic of `check_all_servers`, the color normalizer
`_parse_color`, the e-mail sender `EmailSender.send_alert`, and the
single-pass CLI mode (`test` / `main`).  Machine-level collaborators
(Selenium, SMTP) are replaced by their observable results: a fetched page
becomes the lists of texts of its `.sensr`/`.sensy`/`.sensg` elements
(or `none` when the fetch raised), and the SMTP transport becomes a
boolean oracle for whether the send in lines 66-76 of `email_sender.py`
would succeed (every exception there is caught and turned into `False`
by lines 78-80).  All strings are modelled over their ASCII fragment,
which covers every string the monitored code paths manipulate.
-/

namespace PRTG

/-! ### email_sender.py -/

/-- The slice of `config.json` that `EmailSender.__init__` inspects:
`config.get('smtp', {}).get('server')`.  `none` models both a missing
`smtp` section and a missing `server` key; `some ""` models an empty
string value (Python `bool("")` is `False`). -/
structure Config where
  smtpServer : Option String
deriving DecidableEq

/-- Class `EmailSender` (email_sender.py lines 19-31): `enabled` is
`bool(self.smtp_config.get('server'))`; `smtpOk` is the oracle for the
SMTP transaction of lines 66-76 (`True` = the mail goes out, `False` =
some exception is raised inside the `try`, caught at lines 78-80). -/
structure EmailSender where
  enabled : Bool
  smtpOk : Bool
deriving DecidableEq

/-- Constructor `EmailSender.__init__` (email_sender.py lines 26-28):
`self.enabled = bool(self.smtp_config.get('server'))`. -/
def mkEmailSender (cfg : Config) (smtpOk : Bool) : EmailSender :=
  { enabled := match cfg.smtpServer with
      | none => false
      | some s => s ≠ ""
    smtpOk := smtpOk }

/-- Method `EmailSender.send_alert` (email_sender.py lines 33-80): returns
`False` without doing anything when the sender is disabled (lines
45-47); otherwise returns `True` on a successful SMTP transaction and
`False` when it raises (lines 78-80 catch every exception).  The
function never raises, and its result does not depend on the message
arguments. -/
def send_alert (es : EmailSender) (_server_name _map_url _status : String) : Bool :=
  if es.enabled then es.smtpOk else false

/-! ### _check_server_status: the classifier -/

/-- Python `str.isdigit()` restricted to ASCII: non-empty and every
character a decimal digit. -/
def isDigitStr (s : String) : Bool :=
  !s.data.isEmpty && s.data.all Char.isDigit

/-- Decimal value of a digit list; `digitsToNat ds` is Python
`int(t)` for a string `t` of ASCII digits. -/
def digitsToNat (ds : List Char) : Nat :=
  ds.foldl (fun a c => a * 10 + (c.toNat - 48)) 0

/-- Python `int(t)` for an ASCII string `t` with `t.isdigit()`. -/
def strToNat (s : String) : Nat := digitsToNat s.data

/-- The sum `sum(int(el.text) for el in elements if el.text.isdigit())`
(prtg_monitor.py lines 203, 216, 227). -/
def digitLabelSum (texts : List String) : Nat :=
  ((texts.filter fun t => isDigitStr t).map strToNat).sum

/-- The count computed for one severity class of elements
(prtg_monitor.py lines 200-207, 215-220, 226-231): sum the embedded
numeric labels; if that sum is 0, fall back to the number of elements.
For ASCII texts `int` never raises after `isdigit`, so the `except`
arms at lines 206-207, 219-220, 230-231 are unreachable.  The source
guards each computation with `if elements:`; for an empty list both
the guarded value and this function give 0, so the guard is dropped. -/
def countFromTexts (texts : List String) : Nat :=
  let s := digitLabelSum texts
  if s = 0 then texts.length else s

/-- One fetched map page, reduced to what `_check_server_status` reads:
the texts of the `.sensr` (red/error), `.sensy` (yellow/warning) and
`.sensg` (green/ok) elements, in page order. -/
structure Fragment where
  sensr : List String
  sensy : List String
  sensg : List String
deriving DecidableEq

/-- One observation of a server: `some f` when the page loaded and the
elements were read, `none` when anything in the `try` of
`_check_server_status` raised (prtg_monitor.py lines 241-243). -/
abbrev Observation := Option Fragment

/-- Method `_check_server_status` (prtg_monitor.py lines 172-243), returning
the pair (status description, is-error flag) of the source.  A raised
exception yields `("檢查失敗", False)` (lines 241-243). -/
def check_server_status (obs : Observation) : String × Bool :=
  match obs with
  | none => ("檢查失敗", false)
  | some f =>
    if f.sensr ≠ [] then
      ("錯誤 (" ++ toString (countFromTexts f.sensr) ++ "個)", true)
    else
      let warning_count := countFromTexts f.sensy
      let ok_count := countFromTexts f.sensg
      let status := "正常 (" ++ toString ok_count ++ "個" ++
        (if warning_count > 0 then ", 警告 " ++ toString warning_count ++ "個" else "") ++ ")"
      (status, false)

/-- The spec's four-valued severity vocabulary. -/
inductive Severity where
  | normal
  | warning
  | error
  | unknown
deriving DecidableEq

/-- Severity of an observation, read off the branch structure of
`_check_server_status`: a raised exception is Unknown (lines 241-243),
a page with `.sensr` elements is Error (lines 198-209), otherwise
`.sensy` elements make it Warning and their absence Normal (lines
211-239). -/
def classifySeverity (obs : Observation) : Severity :=
  match obs with
  | none => .unknown
  | some f =>
    if f.sensr ≠ [] then .error
    else if f.sensy ≠ [] then .warning
    else .normal

example : countFromTexts ["3", ""] = 3 := by decide
example : countFromTexts ["x", "y"] = 2 := by decide
example : countFromTexts ["2", "3"] = 5 := by decide
example : (check_server_status (some ⟨["3"], ["9"], []⟩)).2 = true := by decide
example : classifySeverity (some ⟨[], ["1"], []⟩) = .warning := by decide

/-! ### check_all_servers: the debounced alerting loop body -/

/-- One entry of `config['servers']` (prtg_monitor.py lines 254-256). -/
structure Server where
  name : String
  map_id : Nat
deriving DecidableEq

/-- The `self.last_status : Dict[int, str]` store (prtg_monitor.py
line 56), as a total function to `Option`: `none` is an absent key
(`dict.get` returns `None`). -/
def LastStatus : Type := Nat → Option String

/-- The store at start-up: empty dictionary. -/
def emptyStatus : LastStatus := fun _ => none

/-- Assignment `self.last_status[map_id] = v`. -/
def setStatus (st : LastStatus) (k : Nat) (v : String) : LastStatus :=
  fun n => if n = k then some v else st n

@[simp] theorem setStatus_self (st : LastStatus) (k : Nat) (v : String) :
    setStatus st k v k = some v := by
  simp [setStatus]

theorem setStatus_other (st : LastStatus) (k : Nat) (v : String) (m : Nat) (h : m ≠ k) :
    setStatus st k v m = st m := by
  simp [setStatus, h]

/-- What one iteration of the `for server in self.config['servers']`
loop produces (prtg_monitor.py lines 254-283): the updated store,
whether `send_alert` was invoked (line 277), and—when it was—the value
it returned, which the caller discards. -/
structure StepResult where
  st : LastStatus
  alerted : Bool
  delivered : Option Bool

/-- The body of the `check_all_servers` loop for one server
(prtg_monitor.py lines 259-283): classify, then
if the check reported an error and `self.last_status.get(map_id) != 'error'`,
call `send_alert` (ignoring its result) and store `'error'`;
if it reported an error already stored, do nothing;
otherwise (including a failed check) store `'normal'`. -/
def stepServer (es : EmailSender) (base : String) (st : LastStatus)
    (sv : Server) (obs : Observation) : StepResult :=
  let is_error := (check_server_status obs).2
  if is_error then
    if st sv.map_id ≠ some "error" then
      let d := send_alert es sv.name
        (base ++ "/mapshow.htm?id=" ++ toString sv.map_id) "錯誤"
      ⟨setStatus st sv.map_id "error", true, some d⟩
    else
      ⟨st, false, none⟩
  else
    ⟨setStatus st sv.map_id "normal", false, none⟩

/-- One full `check_all_servers` cycle (prtg_monitor.py lines 245-285)
over the configured servers, each paired with the observation its page
fetch produced this cycle; returns the final store and the per-server
alert flags in iteration order. -/
def checkAll (es : EmailSender) (base : String) (st : LastStatus) :
    List (Server × Observation) → LastStatus × List Bool
  | [] => (st, [])
  | (sv, o) :: rest =>
    let r := stepServer es base st sv o
    let (st2, flags) := checkAll es base r.st rest
    (st2, r.alerted :: flags)

/-- The store after a single server has been observed repeatedly, one
observation per poll cycle (the projection of successive
`check_all_servers` cycles onto one server). -/
def runState (es : EmailSender) (base : String) (st : LastStatus)
    (sv : Server) : List Observation → LastStatus
  | [] => st
  | o :: rest => runState es base (stepServer es base st sv o).st sv rest

/-- The per-poll alert flags for a single server observed repeatedly. -/
def alertTrace (es : EmailSender) (base : String) (st : LastStatus)
    (sv : Server) : List Observation → List Bool
  | [] => []
  | o :: rest =>
    let r := stepServer es base st sv o
    r.alerted :: alertTrace es base r.st sv rest

/-! ### test / main: the single-pass CLI mode -/

/-- Method `PRTGMonitor.test` (prtg_monitor.py lines 326-346): after a failed
login it returns without checking anything (lines 331-333, no exception,
no exit call); after a successful login it runs `check_all_servers`
exactly once.  Result: (number of `check_all_servers` invocations,
result of the single cycle, if any). -/
def test_run (login_ok : Bool) (es : EmailSender) (base : String)
    (servers : List (Server × Observation)) : Nat × (LastStatus × List Bool) :=
  if login_ok then (1, checkAll es base emptyStatus servers)
  else (0, (emptyStatus, []))

/-- How a single-pass (`--test`) invocation of `main` can go. -/
inductive CliOutcome where
  | configMissing
  | authFailed
  | authOk

/-- Function `main` in `--test` mode (prtg_monitor.py lines 355-376 with
`args.test` true): a missing config file raises `FileNotFoundError`,
caught at lines 371-373 with `sys.exit(1)`; otherwise `monitor.test()`
runs and `main` falls off the end, so the interpreter exits with
status 0 — also when the login failed, because `test` merely
returns (line 333).  Result: (cycles run, process exit status). -/
def main_test (es : EmailSender) (base : String)
    (servers : List (Server × Observation)) : CliOutcome → Nat × Nat
  | .configMissing => (0, 1)
  | .authFailed => ((test_run false es base servers).1, 0)
  | .authOk => ((test_run true es base servers).1, 0)

/-- Email sender of a fully-configured, working SMTP setup. -/
def esOk : EmailSender := ⟨true, true⟩

/-- A sample server. -/
def svA : Server := ⟨"A", 1⟩

/-- An observation that classifies as Error. -/
def obsErr : Observation := some ⟨["1"], [], []⟩

/-- An observation that classifies as Normal. -/
def obsNorm : Observation := some ⟨[], [], ["5"]⟩

/-- An observation that classifies as Warning. -/
def obsWarn : Observation := some ⟨[], ["2"], []⟩

example : alertTrace esOk "" emptyStatus svA [obsErr, obsErr, none, obsNorm, obsErr]
    = [true, false, false, false, true] := by decide
example : runState esOk "" emptyStatus svA [obsErr, none] svA.map_id = some "normal" := by
  decide
example : (checkAll esOk "" emptyStatus [(svA, obsErr), (⟨"B", 1⟩, obsErr)]).2
    = [true, false] := by decide

/-! ### _parse_color: color normalization -/

/-- The ASCII whitespace characters of Python's `str.strip` and of the
regex class `\s`: space, tab, newline, carriage return, vertical tab,
form feed. -/
def isPyWs (c : Char) : Bool :=
  c = ' ' || c = '\t' || c = '\n' || c = '\r' || c = Char.ofNat 11 || c = Char.ofNat 12

/-- Python `str.lower` on an ASCII character. -/
def pyLower (c : Char) : Char :=
  if 'A' ≤ c && c ≤ 'Z' then Char.ofNat (c.toNat + 32) else c

/-- Python `str.strip()` on a character list. -/
def stripList (l : List Char) : List Char :=
  ((l.dropWhile isPyWs).reverse.dropWhile isPyWs).reverse

/-- Consume the regex piece `\s*`. -/
def skipWs (l : List Char) : List Char := l.dropWhile isPyWs

/-- Consume one expected literal character. -/
def expectChar (c : Char) : List Char → Option (List Char)
  | x :: rest => if x = c then some rest else none
  | [] => none

/-- Consume the regex piece `(\d+)`: a non-empty maximal digit run,
returned as its `int(...)` value (the regex is greedy, and a digit run
followed by a non-digit makes greedy matching deterministic). -/
def readDigitRun (l : List Char) : Option (Nat × List Char) :=
  match l.takeWhile Char.isDigit with
  | [] => none
  | ds => some (digitsToNat ds, l.dropWhile Char.isDigit)

/-- Model of `re.match(r'rgba?\s*\(\s*(\d+)\s*,\s*(\d+)\s*,\s*(\d+)', t)`
(prtg_monitor.py line 165) on an already lower-cased string, returning
the three captured channels.  `rgba?` is rendered as an optional `'a'`
after `"rgb"`: consuming a present `'a'` is equivalent to the regex
with backtracking, because when the `'a'` is present and the rest
fails, the backtracked alternative needs `\s*\(` to match at the
`'a'`, which is impossible.  Anything after the third digit run is
ignored, exactly as the unanchored-tail regex ignores it. -/
def rgbMatch (l : List Char) : Option (Nat × Nat × Nat) := do
  let l ← expectChar 'r' l
  let l ← expectChar 'g' l
  let l ← expectChar 'b' l
  let l := if l.head? = some 'a' then l.tail else l
  let l ← expectChar '(' (skipWs l)
  let (rv, l) ← readDigitRun (skipWs l)
  let l ← expectChar ',' (skipWs l)
  let (gv, l) ← readDigitRun (skipWs l)
  let l ← expectChar ',' (skipWs l)
  let (bv, _) ← readDigitRun (skipWs l)
  pure (rv, gv, bv)

/-- Python `f'{n:02x}'`: minimal lowercase hexadecimal digits
(`Nat.toDigits 16` produces exactly those), zero-padded on the left to
width 2. -/
def hex2chars (n : Nat) : List Char :=
  match Nat.toDigits 16 n with
  | [c] => ['0', c]
  | l => l

/-- Method `_parse_color` (prtg_monitor.py lines 148-170): strip and
lower-case the input; return it as-is when it starts with `'#'`;
otherwise try the `rgb()`/`rgba()` regex and re-encode the three
captured channels as `f'#{r:02x}{g:02x}{b:02x}'`; otherwise return the
stripped lower-cased input unchanged. -/
def parse_color (s : String) : String :=
  let t := (stripList s.data).map pyLower
  if t.head? = some '#' then String.mk t
  else
    match rgbMatch t with
    | some (rv, gv, bv) =>
      String.mk ('#' :: (hex2chars rv ++ hex2chars gv ++ hex2chars bv))
    | none => String.mk t

example : parse_color "rgb(227, 6, 19)" = "#e30613" := by decide
example : parse_color "#E30613" = "#e30613" := by decide
example : parse_color "rgba(227, 6, 19, 0.5)" = "#e30613" := by decide
example : parse_color "  Red " = "red" := by decide
example : parse_color "rgb(0,1,2)" = "#000102" := by decide

/-! ### Lemmas about the debounce state machine -/

theorem check2_iff (obs : Observation) :
    (check_server_status obs).2 = true ↔ classifySeverity obs = .error := by
  cases obs with
  | none => simp [check_server_status, classifySeverity]
  | some f =>
    by_cases h : f.sensr = []
    · simp only [check_server_status, classifySeverity, h]
      simp only [ne_eq, not_true_eq_false, if_false]
      constructor
      · intro hc
        exact absurd hc (by simp)
      · intro hc
        split at hc <;> simp_all
    · simp [check_server_status, classifySeverity, h]

/-- After processing one observation, the server's own store entry is
`'error'` exactly when the observation was an Error, and `'normal'`
otherwise — including Unknown observations. -/
theorem stepServer_st_self (es : EmailSender) (base : String) (st : LastStatus)
    (sv : Server) (obs : Observation) :
    (stepServer es base st sv obs).st sv.map_id
      = some (if classifySeverity obs = .error then "error" else "normal") := by
  by_cases h : classifySeverity obs = .error
  · have h2 : (check_server_status obs).2 = true := (check2_iff obs).mpr h
    by_cases h3 : st sv.map_id = some "error"
    · simp [stepServer, h2, h3, h]
    · simp [stepServer, h2, h3, h]
  · have h2 : (check_server_status obs).2 = false := by
      cases hb : (check_server_status obs).2 with
      | false => rfl
      | true => exact absurd ((check2_iff obs).mp hb) h
    simp [stepServer, h2, h]

/-- Other store entries are untouched. -/
theorem stepServer_st_other (es : EmailSender) (base : String) (st : LastStatus)
    (sv : Server) (obs : Observation) (m : Nat) (h : m ≠ sv.map_id) :
    (stepServer es base st sv obs).st m = st m := by
  cases h2 : (check_server_status obs).2 with
  | true =>
    by_cases h3 : st sv.map_id = some "error"
    · simp [stepServer, h2, h3]
    · simp [stepServer, h2, h3, setStatus_other st sv.map_id "error" m h]
  | false => simp [stepServer, h2, setStatus_other st sv.map_id "normal" m h]

/-- Observe that `send_alert` is invoked on a server exactly when its observation is
an Error and its stored status is not `'error'`. -/
theorem stepServer_alerted_iff (es : EmailSender) (base : String) (st : LastStatus)
    (sv : Server) (obs : Observation) :
    (stepServer es base st sv obs).alerted = true
      ↔ (classifySeverity obs = .error ∧ st sv.map_id ≠ some "error") := by
  by_cases h : classifySeverity obs = .error
  · have h2 : (check_server_status obs).2 = true := (check2_iff obs).mpr h
    by_cases h3 : st sv.map_id = some "error"
    · simp [stepServer, h2, h3, h]
    · simp [stepServer, h2, h3, h]
  · have h2 : (check_server_status obs).2 = false := by
      cases hb : (check_server_status obs).2 with
      | false => rfl
      | true => exact absurd ((check2_iff obs).mp hb) h
    simp [stepServer, h2, h]

/-- Observe that `send_alert` is invoked exactly when the alert flag is raised. -/
theorem stepServer_delivered_iff (es : EmailSender) (base : String) (st : LastStatus)
    (sv : Server) (obs : Observation) :
    (stepServer es base st sv obs).delivered
      = if (stepServer es base st sv obs).alerted then
          some (send_alert es sv.name
            (base ++ "/mapshow.htm?id=" ++ toString sv.map_id) "錯誤")
        else none := by
  cases h2 : (check_server_status obs).2 with
  | true =>
    by_cases h3 : st sv.map_id = some "error" <;> simp [stepServer, h2, h3]
  | false => simp [stepServer, h2]

theorem alertTrace_length (es : EmailSender) (base : String) (st : LastStatus)
    (sv : Server) (l : List Observation) :
    (alertTrace es base st sv l).length = l.length := by
  induction l generalizing st with
  | nil => rfl
  | cons o rest ih => simp [alertTrace, ih]

theorem alertTrace_append (es : EmailSender) (base : String) (st : LastStatus)
    (sv : Server) (l1 l2 : List Observation) :
    alertTrace es base st sv (l1 ++ l2)
      = alertTrace es base st sv l1 ++ alertTrace es base (runState es base st sv l1) sv l2 := by
  induction l1 generalizing st with
  | nil => simp [alertTrace, runState]
  | cons o rest ih => simp [alertTrace, runState, ih]

theorem runState_append (es : EmailSender) (base : String) (st : LastStatus)
    (sv : Server) (l1 l2 : List Observation) :
    runState es base st sv (l1 ++ l2)
      = runState es base (runState es base st sv l1) sv l2 := by
  induction l1 generalizing st with
  | nil => simp [runState]
  | cons o rest ih => simp [runState, ih]

/-- The stored status after a non-empty history is decided by the last
observation alone: `'error'` when it was an Error, else `'normal'`. -/
theorem runState_self_getLast (es : EmailSender) (base : String)
    (sv : Server) (l : List Observation) (o : Observation) (st : LastStatus)
    (hl : l.getLast? = some o) :
    runState es base st sv l sv.map_id
      = some (if classifySeverity o = .error then "error" else "normal") := by
  induction l generalizing st with
  | nil => simp at hl
  | cons x rest ih =>
    cases rest with
    | nil =>
      simp only [List.getLast?_singleton, Option.some.injEq] at hl
      subst hl
      simp [runState, stepServer_st_self]
    | cons y rest2 =>
      have hl2 : (y :: rest2).getLast? = some o := by
        simpa [List.getLast?_cons_cons] using hl
      simp only [runState]
      exact ih (stepServer es base st sv x).st hl2

/-- While the stored status is `'error'`, a run of Error observations
raises no alert and leaves the stored status at `'error'`. -/
theorem alertTrace_suppressed (es : EmailSender) (base : String)
    (sv : Server) (l : List Observation) (st : LastStatus)
    (hst : st sv.map_id = some "error")
    (herr : ∀ o ∈ l, classifySeverity o = .error) :
    alertTrace es base st sv l = List.replicate l.length false := by
  induction l generalizing st with
  | nil => rfl
  | cons o rest ih =>
    have ho : classifySeverity o = .error := herr o (by simp)
    have halert : (stepServer es base st sv o).alerted = false := by
      cases hb : (stepServer es base st sv o).alerted with
      | false => rfl
      | true =>
        have := (stepServer_alerted_iff es base st sv o).mp hb
        exact absurd hst this.2
    have hstep : (stepServer es base st sv o).st sv.map_id = some "error" := by
      rw [stepServer_st_self, if_pos ho]
    simp only [alertTrace, List.length_cons, List.replicate_succ, halert]
    exact congrArg _ (ih _ hstep (fun x hx => herr x (List.mem_cons_of_mem _ hx)))

/-- From a non-`'error'` stored status, a non-empty run of Error
observations alerts on its first poll and on no later one. -/
theorem alertTrace_run (es : EmailSender) (base : String)
    (sv : Server) (o : Observation) (rest : List Observation) (st : LastStatus)
    (hst : st sv.map_id ≠ some "error")
    (herr : ∀ x ∈ o :: rest, classifySeverity x = .error) :
    alertTrace es base st sv (o :: rest)
      = true :: List.replicate rest.length false := by
  have ho : classifySeverity o = .error := herr o (by simp)
  have halert : (stepServer es base st sv o).alerted = true :=
    (stepServer_alerted_iff es base st sv o).mpr ⟨ho, hst⟩
  have hstep : (stepServer es base st sv o).st sv.map_id = some "error" := by
    rw [stepServer_st_self, if_pos ho]
  simp only [alertTrace, halert]
  exact congrArg _ (alertTrace_suppressed es base sv rest _ hstep
    (fun x hx => herr x (by simp [hx])))

/-- Poll `i` of a history alerts exactly when observation `i` is an
Error and the store built from the first `i` observations does not
hold `'error'`. -/
theorem alertTrace_getD (es : EmailSender) (base : String) (sv : Server) :
    ∀ (l : List Observation) (st : LastStatus) (i : Nat), i < l.length →
      ((alertTrace es base st sv l).getD i false = true ↔
        (classifySeverity (l.getD i none) = .error ∧
         runState es base st sv (l.take i) sv.map_id ≠ some "error")) := by
  intro l
  induction l with
  | nil => intro st i hi; simp at hi
  | cons o rest ih =>
    intro st i hi
    cases i with
    | zero =>
      simp only [alertTrace, List.getD_cons_zero, List.take_zero, runState]
      exact stepServer_alerted_iff es base st sv o
    | succ j =>
      have hj : j < rest.length := by simpa using hi
      simp only [alertTrace, List.getD_cons_succ, List.take_succ_cons, runState]
      exact ih (stepServer es base st sv o).st j hj

/-! ### Claim theorems -/

/-- Claim C1.  For every per-entity sequence of observed verdicts
processed by `check_all_servers`, `send_alert` is invoked on a poll if
and only if the current verdict's severity is Error and the stored
last status for that entity is not `'error'` (including the
first-observation case, where nothing is stored); and a maximal run of
consecutive Error observations produces exactly one alert, on its
first poll. -/
theorem C1_alert_iff_error_transition :
    (∀ (es : EmailSender) (base : String) (sv : Server)
       (obs : List Observation) (i : Nat), i < obs.length →
       ((alertTrace es base emptyStatus sv obs).getD i false = true ↔
         (classifySeverity (obs.getD i none) = .error ∧
          runState es base emptyStatus sv (obs.take i) sv.map_id ≠ some "error")))
    ∧
    (∀ (es : EmailSender) (base : String) (sv : Server)
       (pre run post : List Observation),
       run ≠ [] →
       (∀ o ∈ run, classifySeverity o = .error) →
       (∀ o, pre.getLast? = some o → classifySeverity o ≠ .error) →
       ((alertTrace es base emptyStatus sv (pre ++ run ++ post)).drop pre.length).take
           run.length
         = true :: List.replicate (run.length - 1) false) := by
  constructor
  · intro es base sv obs i hi
    exact alertTrace_getD es base sv obs emptyStatus i hi
  · intro es base sv pre run post hne herr hpre
    have hst1 : runState es base emptyStatus sv pre sv.map_id ≠ some "error" := by
      rcases List.eq_nil_or_concat pre with h | ⟨l, a, rfl⟩
      · subst h
        simp [runState, emptyStatus]
      · rw [List.concat_eq_append] at hpre ⊢
        have hlast : (l ++ [a]).getLast? = some a := List.getLast?_concat l
        rw [runState_self_getLast es base sv _ a emptyStatus hlast,
          if_neg (hpre a hlast)]
        simp
    rcases List.exists_cons_of_ne_nil hne with ⟨r, rs, rfl⟩
    have hrun := alertTrace_run es base sv r rs
      (runState es base emptyStatus sv pre) hst1 herr
    rw [List.append_assoc]
    rw [alertTrace_append, List.drop_left' (alertTrace_length es base emptyStatus sv pre),
      alertTrace_append, hrun]
    have hlen : (r :: rs).length = (true :: List.replicate rs.length false).length := by
      simp
    rw [hlen, List.take_left]
    simp

/-- Witness for C1: the first Error after a Normal poll alerts, and the
two-Error run inside [Normal, Error, Error, Normal] yields exactly one
alert, on its first poll. -/
theorem C1_alert_iff_error_transition_witness :
    ((alertTrace esOk "" emptyStatus svA [obsErr]).getD 0 false = true ↔
      (classifySeverity ([obsErr].getD 0 none) = .error ∧
       runState esOk "" emptyStatus svA ([obsErr].take 0) svA.map_id ≠ some "error"))
    ∧ ((alertTrace esOk "" emptyStatus svA
          ([obsNorm] ++ [obsErr, obsErr] ++ [obsNorm])).drop 1).take 2
        = true :: List.replicate 1 false := by
  constructor
  · exact C1_alert_iff_error_transition.1 esOk "" svA [obsErr] 0 (by decide)
  · exact C1_alert_iff_error_transition.2 esOk "" svA [obsNorm] [obsErr, obsErr] [obsNorm]
      (by decide) (by decide)
      (by intro o ho; simp at ho; subst ho; decide)

/-- A store already holding `'error'` for map id 1. -/
def stErr : LastStatus := setStatus emptyStatus 1 "error"

/-- Claim C2 counterexample.  An Unknown observation (failed check) does
NOT leave the stored status untouched: from a stored `'error'` the code
overwrites the entry with `'normal'` (prtg_monitor.py line 283 runs
because `_check_server_status` returned `("檢查失敗", False)`). -/
theorem C2_counterexample :
    (stepServer esOk "" stErr svA none).alerted = false ∧
    (stepServer esOk "" stErr svA none).st svA.map_id = some "normal" ∧
    (stepServer esOk "" stErr svA none).st svA.map_id ≠ stErr svA.map_id := by
  refine ⟨by decide, by decide, by decide⟩

/-- Claim C2, amended.  When an observation for an entity is Unknown
(the fetch/parse for that entity fails), no alert is produced for that
entity on that poll, but the stored last status is set to `'normal'`
(the code's else-branch treats a failed check like a normal
observation), whatever the prior stored status was. -/
theorem C2_unknown_no_alert_but_resets (es : EmailSender) (base : String)
    (st : LastStatus) (sv : Server) :
    (stepServer es base st sv none).alerted = false ∧
    (stepServer es base st sv none).delivered = none ∧
    (stepServer es base st sv none).st sv.map_id = some "normal" := by
  refine ⟨?_, ?_, ?_⟩ <;> simp [stepServer, check_server_status, setStatus]

/-- Claim C3.  On a qualifying Error transition the stored status is set
to `'error'` no matter what `send_alert` returns (the return value is
ignored at line 277, and `send_alert` converts every internal delivery
exception into `False` at email_sender.py lines 78-80, so nothing can
propagate); the next Error poll for the same entity invokes no further
delivery. -/
theorem C3_state_commits_regardless_of_delivery (es : EmailSender)
    (base : String) (st : LastStatus) (sv : Server) (obs obs2 : Observation)
    (h1 : classifySeverity obs = .error) (h2 : st sv.map_id ≠ some "error")
    (h3 : classifySeverity obs2 = .error) :
    (stepServer es base st sv obs).alerted = true ∧
    (stepServer es base st sv obs).st sv.map_id = some "error" ∧
    (stepServer es base (stepServer es base st sv obs).st sv obs2).alerted = false ∧
    (stepServer es base (stepServer es base st sv obs).st sv obs2).delivered = none := by
  have ha := (stepServer_alerted_iff es base st sv obs).mpr ⟨h1, h2⟩
  have hs : (stepServer es base st sv obs).st sv.map_id = some "error" := by
    rw [stepServer_st_self, if_pos h1]
  have hb : (stepServer es base (stepServer es base st sv obs).st sv obs2).alerted
      = false := by
    cases hx : (stepServer es base (stepServer es base st sv obs).st sv obs2).alerted with
    | false => rfl
    | true =>
      have := (stepServer_alerted_iff es base _ sv obs2).mp hx
      exact absurd hs this.2
  refine ⟨ha, hs, hb, ?_⟩
  rw [stepServer_delivered_iff, hb]
  simp

/-- Witness for C3, with an e-mail sender whose SMTP transaction
fails: `send_alert` returns `False`, the state still commits. -/
theorem C3_state_commits_regardless_of_delivery_witness :
    (stepServer ⟨true, false⟩ "" emptyStatus svA obsErr).alerted = true ∧
    (stepServer ⟨true, false⟩ "" emptyStatus svA obsErr).st svA.map_id = some "error" ∧
    (stepServer ⟨true, false⟩ ""
      (stepServer ⟨true, false⟩ "" emptyStatus svA obsErr).st svA obsErr).alerted = false ∧
    (stepServer ⟨true, false⟩ ""
      (stepServer ⟨true, false⟩ "" emptyStatus svA obsErr).st svA obsErr).delivered
      = none :=
  C3_state_commits_regardless_of_delivery ⟨true, false⟩ "" emptyStatus svA obsErr obsErr
    (by decide) (by decide) (by decide)

/-- Claim C4.  A fragment with at least one `.sensr` element classifies
as Error, with a status line whose count is computed from the `.sensr`
texts alone; the result is identical for any fragment with the same
`.sensr` texts, whatever its `.sensy`/`.sensg` elements (they are
never queried on this branch: lines 198-209 return before lines
212-231 run). -/
theorem C4_error_dominates (f : Fragment) (h : f.sensr ≠ []) :
    classifySeverity (some f) = .error ∧
    check_server_status (some f)
      = ("錯誤 (" ++ toString (countFromTexts f.sensr) ++ "個)", true) ∧
    (∀ g : Fragment, g.sensr = f.sensr →
      check_server_status (some g) = check_server_status (some f)) := by
  refine ⟨by simp [classifySeverity, h], by simp [check_server_status, h], ?_⟩
  intro g hg
  have hg2 : g.sensr ≠ [] := by rw [hg]; exact h
  simp [check_server_status, hg, hg2, h]

/-- Witness for C4: errors "3" dominate warnings "7" and oks "2". -/
theorem C4_error_dominates_witness :
    classifySeverity (some ⟨["3"], ["7"], ["2"]⟩) = .error ∧
    check_server_status (some ⟨["3"], ["7"], ["2"]⟩)
      = ("錯誤 (" ++ toString (countFromTexts ["3"]) ++ "個)", true) ∧
    (∀ g : Fragment, g.sensr = Fragment.sensr ⟨["3"], ["7"], ["2"]⟩ →
      check_server_status (some g) = check_server_status (some ⟨["3"], ["7"], ["2"]⟩)) :=
  C4_error_dominates ⟨["3"], ["7"], ["2"]⟩ (by decide)

/-- Modelled from the claim's words (for comparison only): each
numeric-text element contributes its integer value, each non-numeric
or empty element contributes 1, and the contributions sum. -/
def claimLabelCount (texts : List String) : Nat :=
  (texts.map fun t => if isDigitStr t then strToNat t else 1).sum

/-- Claim C5 counterexample.  The source's count for the element texts
`["3", ""]` is 3, not the 4 the claim's contribution rule predicts:
`sum(int(el.text) for el in els if el.text.isdigit())` skips the empty
text entirely (line 203) and the fallback to the element count only
triggers when the sum is 0 (line 204). -/
theorem C5_counterexample :
    countFromTexts ["3", ""] = 3 ∧ claimLabelCount ["3", ""] = 4 ∧
    countFromTexts ["3", ""] ≠ claimLabelCount ["3", ""] := by
  refine ⟨by decide, by decide, by decide⟩

/-- Claim C5, amended.  For every non-empty list of same-severity
indicator texts: elements with non-numeric or empty text contribute
nothing; if some element bears a positive numeric label the count is
the sum of the numeric labels, and otherwise (no positive numeric
label, counting `"0"` as non-positive) the count is the number of
elements.  In particular `["3", ""]` yields 3. -/
theorem C5_label_count (texts : List String) (hne : texts ≠ []) :
    ((∃ t ∈ texts, isDigitStr t = true ∧ 0 < strToNat t) →
      countFromTexts texts = digitLabelSum texts)
    ∧ ((∀ t ∈ texts, isDigitStr t = true → strToNat t = 0) →
      countFromTexts texts = texts.length) := by
  constructor
  · rintro ⟨t, ht, hd, hpos⟩
    have hmem : strToNat t ∈ (texts.filter fun u => isDigitStr u).map strToNat :=
      List.mem_map_of_mem _ (List.mem_filter.mpr ⟨ht, hd⟩)
    have hsum : digitLabelSum texts ≠ 0 := by
      intro h0
      have := (List.sum_eq_zero_iff).mp h0 _ hmem
      omega
    simp [countFromTexts, hsum]
  · intro hall
    have hsum : digitLabelSum texts = 0 := by
      apply List.sum_eq_zero_iff.mpr
      intro x hx
      rcases List.mem_map.mp hx with ⟨t, ht, rfl⟩
      rcases List.mem_filter.mp ht with ⟨htm, htd⟩
      exact hall t htm htd
    simp [countFromTexts, hsum]

/-- Witness for C5: `["3", ""]` has the positive numeric label 3, and
the computed count is the label sum 3. -/
theorem C5_label_count_witness :
    countFromTexts ["3", ""] = digitLabelSum ["3", ""] :=
  (C5_label_count ["3", ""] (by decide)).1 (by decide)

/-- Modelled from the spec (for comparison only): the stored-state
label that §4.3's "set stored state to `current.severity`" writes for
each severity. -/
def severityStoredLabel : Severity → String
  | .normal => "normal"
  | .warning => "warning"
  | .error => "error"
  | .unknown => "unknown"

/-- Claim C6 counterexample.  A Warning observation does not store the
observation's severity: the code's else-branch (line 283) writes
`'normal'`, not `'warning'`. -/
theorem C6_counterexample :
    classifySeverity obsWarn = .warning ∧
    (stepServer esOk "" emptyStatus svA obsWarn).st svA.map_id = some "normal" ∧
    (stepServer esOk "" emptyStatus svA obsWarn).st svA.map_id
      ≠ some (severityStoredLabel (classifySeverity obsWarn)) := by
  refine ⟨by decide, by decide, by decide⟩

/-- Claim C6, amended.  For every Normal or Warning observation, no
alert is produced and the stored last status is set to `'normal'`
(Warning is collapsed to the same stored value as Normal rather than
recorded as its own severity); in either case the next Error
observation for that entity produces an alert — the debounce re-arms. -/
theorem C6_nonerror_stores_normal_and_rearms (es : EmailSender) (base : String)
    (st : LastStatus) (sv : Server) (obs obs2 : Observation)
    (h1 : classifySeverity obs = .normal ∨ classifySeverity obs = .warning)
    (h2 : classifySeverity obs2 = .error) :
    (stepServer es base st sv obs).alerted = false ∧
    (stepServer es base st sv obs).st sv.map_id = some "normal" ∧
    (stepServer es base (stepServer es base st sv obs).st sv obs2).alerted = true := by
  have hne : classifySeverity obs ≠ .error := by
    rcases h1 with h | h <;> simp [h]
  have hstore : (stepServer es base st sv obs).st sv.map_id = some "normal" := by
    rw [stepServer_st_self, if_neg hne]
  refine ⟨?_, hstore, ?_⟩
  · cases hx : (stepServer es base st sv obs).alerted with
    | false => rfl
    | true => exact absurd ((stepServer_alerted_iff es base st sv obs).mp hx).1 hne
  · exact (stepServer_alerted_iff es base _ sv obs2).mpr
      ⟨h2, by rw [hstore]; simp⟩

/-- Witness for C6: a Warning poll stores `'normal'` and the following
Error poll alerts. -/
theorem C6_nonerror_stores_normal_and_rearms_witness :
    (stepServer esOk "" emptyStatus svA obsWarn).alerted = false ∧
    (stepServer esOk "" emptyStatus svA obsWarn).st svA.map_id = some "normal" ∧
    (stepServer esOk "" (stepServer esOk "" emptyStatus svA obsWarn).st svA obsErr).alerted
      = true :=
  C6_nonerror_stores_normal_and_rearms esOk "" emptyStatus svA obsWarn obsErr
    (by decide) (by decide)

/-- Claim C9.  The debounce store is keyed solely by `map_id`
(prtg_monitor.py line 56: `Dict[int, str]`, written at lines 275-283
under `map_id`), not by the server's name: two configured servers with
the same `map_id` share one entry, so within one cycle an Error on the
first suppresses the first-Error alert of the second; and an entry is
only ever touched by servers carrying its `map_id`, so state machines
are independent exactly when the configured `map_id`s are pairwise
distinct. -/
theorem C9_store_keyed_by_map_id (es : EmailSender) (base : String)
    (st : LastStatus) (sv1 sv2 : Server) (o1 o2 : Observation) :
    (sv1.map_id = sv2.map_id →
      classifySeverity o1 = .error → classifySeverity o2 = .error →
      st sv1.map_id ≠ some "error" →
      (checkAll es base st [(sv1, o1), (sv2, o2)]).2 = [true, false])
    ∧
    (∀ others : List (Server × Observation),
      (∀ p ∈ others, (p : Server × Observation).1.map_id ≠ sv2.map_id) →
      (checkAll es base st others).1 sv2.map_id = st sv2.map_id)
    ∧
    (sv1.map_id ≠ sv2.map_id →
      (stepServer es base (stepServer es base st sv1 o1).st sv2 o2).alerted
        = (stepServer es base st sv2 o2).alerted) := by
  refine ⟨?_, ?_, ?_⟩
  · intro hid h1 h2 hst
    have ha1 : (stepServer es base st sv1 o1).alerted = true :=
      (stepServer_alerted_iff es base st sv1 o1).mpr ⟨h1, hst⟩
    have hs1 : (stepServer es base st sv1 o1).st sv2.map_id = some "error" := by
      rw [← hid, stepServer_st_self, if_pos h1]
    have ha2 : (stepServer es base (stepServer es base st sv1 o1).st sv2 o2).alerted
        = false := by
      cases hx : (stepServer es base (stepServer es base st sv1 o1).st sv2 o2).alerted with
      | false => rfl
      | true =>
        have := (stepServer_alerted_iff es base _ sv2 o2).mp hx
        exact absurd hs1 this.2
    simp [checkAll, ha1, ha2]
  · intro others
    induction others generalizing st with
    | nil => intro _; rfl
    | cons p rest ih =>
      intro hall
      have hp : p.1.map_id ≠ sv2.map_id := hall p (by simp)
      have hrest : ∀ q ∈ rest, (q : Server × Observation).1.map_id ≠ sv2.map_id :=
        fun q hq => hall q (by simp [hq])
      cases p with
      | mk sv o =>
        simp only [checkAll]
        rw [ih _ hrest]
        exact stepServer_st_other es base st sv o sv2.map_id (Ne.symm hp)
  · intro h
    have hst : (stepServer es base st sv1 o1).st sv2.map_id = st sv2.map_id :=
      stepServer_st_other es base st sv1 o1 sv2.map_id (Ne.symm h)
    cases hb : (stepServer es base st sv2 o2).alerted with
    | true =>
      have hx := (stepServer_alerted_iff es base st sv2 o2).mp hb
      exact (stepServer_alerted_iff es base _ sv2 o2).mpr
        ⟨hx.1, by rw [hst]; exact hx.2⟩
    | false =>
      cases hb2 : (stepServer es base (stepServer es base st sv1 o1).st sv2 o2).alerted with
      | false => rfl
      | true =>
        have hx := (stepServer_alerted_iff es base _ sv2 o2).mp hb2
        rw [hst] at hx
        have := (stepServer_alerted_iff es base st sv2 o2).mpr hx
        rw [hb] at this
        exact absurd this (by simp)

/-- Witness for C9: servers "A" and "B" both have map id 1, so B's
first Error is suppressed by A's; and with distinct ids 1 and 2 the
entry of id 2 survives a cycle that only touches id 1. -/
theorem C9_store_keyed_by_map_id_witness :
    (checkAll esOk "" emptyStatus [(svA, obsErr), (⟨"B", 1⟩, obsErr)]).2
      = [true, false]
    ∧ (checkAll esOk "" emptyStatus [(svA, obsErr)]).1 (2 : Nat)
        = emptyStatus (2 : Nat) := by
  constructor
  · exact (C9_store_keyed_by_map_id esOk "" emptyStatus svA ⟨"B", 1⟩ obsErr obsErr).1
      (by decide) (by decide) (by decide) (by decide)
  · exact (C9_store_keyed_by_map_id esOk "" emptyStatus svA ⟨"B", 2⟩ obsErr obsErr).2.1
      [(svA, obsErr)] (by decide)

/-- Claim C10.  With no `smtp.server` configured the sender is disabled:
`send_alert` returns `False` for every input without raising (it is a
total function of its arguments), the monitor ignores that result and
records `'error'` anyway, and both the store and the alert decisions
are the same as with any other sender — suppression behaves exactly as
if delivery had succeeded. -/
theorem C10_disabled_email_still_suppresses (cfg : Config) (smtpOk : Bool)
    (h : cfg.smtpServer = none) :
    (mkEmailSender cfg smtpOk).enabled = false ∧
    (∀ n u s, send_alert (mkEmailSender cfg smtpOk) n u s = false) ∧
    (∀ (es2 : EmailSender) (base : String) (st : LastStatus) (sv : Server)
       (obs : Observation),
      (stepServer (mkEmailSender cfg smtpOk) base st sv obs).st
        = (stepServer es2 base st sv obs).st ∧
      (stepServer (mkEmailSender cfg smtpOk) base st sv obs).alerted
        = (stepServer es2 base st sv obs).alerted) ∧
    (∀ (base : String) (st : LastStatus) (sv : Server) (obs : Observation),
      classifySeverity obs = .error → st sv.map_id ≠ some "error" →
      (stepServer (mkEmailSender cfg smtpOk) base st sv obs).st sv.map_id = some "error" ∧
      (stepServer (mkEmailSender cfg smtpOk) base st sv obs).delivered = some false) := by
  have hen : (mkEmailSender cfg smtpOk).enabled = false := by
    simp [mkEmailSender, h]
  have hsend : ∀ n u s, send_alert (mkEmailSender cfg smtpOk) n u s = false := by
    intro n u s
    simp [send_alert, hen]
  refine ⟨hen, hsend, ?_, ?_⟩
  · intro es2 base st sv obs
    cases h2 : (check_server_status obs).2 with
    | true =>
      by_cases h3 : st sv.map_id = some "error" <;>
        constructor <;> simp [stepServer, h2, h3]
    | false => constructor <;> simp [stepServer, h2]
  · intro base st sv obs hobs hst
    have halert : (stepServer (mkEmailSender cfg smtpOk) base st sv obs).alerted = true :=
      (stepServer_alerted_iff _ base st sv obs).mpr ⟨hobs, hst⟩
    constructor
    · rw [stepServer_st_self, if_pos hobs]
    · rw [stepServer_delivered_iff, halert, if_pos rfl, hsend]

/-- Witness for C10 at the concrete SMTP-less configuration. -/
theorem C10_disabled_email_still_suppresses_witness :
    (mkEmailSender ⟨none⟩ true).enabled = false ∧
    (∀ n u s, send_alert (mkEmailSender ⟨none⟩ true) n u s = false) ∧
    (∀ (es2 : EmailSender) (base : String) (st : LastStatus) (sv : Server)
       (obs : Observation),
      (stepServer (mkEmailSender ⟨none⟩ true) base st sv obs).st
        = (stepServer es2 base st sv obs).st ∧
      (stepServer (mkEmailSender ⟨none⟩ true) base st sv obs).alerted
        = (stepServer es2 base st sv obs).alerted) ∧
    (∀ (base : String) (st : LastStatus) (sv : Server) (obs : Observation),
      classifySeverity obs = .error → st sv.map_id ≠ some "error" →
      (stepServer (mkEmailSender ⟨none⟩ true) base st sv obs).st sv.map_id
        = some "error" ∧
      (stepServer (mkEmailSender ⟨none⟩ true) base st sv obs).delivered = some false) :=
  C10_disabled_email_still_suppresses ⟨none⟩ true rfl

/-! ### Lemmas for the color normalizer -/

theorem takeWhile_all {α : Type} (p : α → Bool) (l : List α)
    (h : ∀ c ∈ l, p c = true) : l.takeWhile p = l := by
  induction l with
  | nil => rfl
  | cons a t ih =>
    simp only [List.takeWhile_cons, h a (by simp)]
    exact congrArg _ (ih fun c hc => h c (by simp [hc]))

theorem dropWhile_all {α : Type} (p : α → Bool) (l : List α)
    (h : ∀ c ∈ l, p c = true) : l.dropWhile p = [] := by
  induction l with
  | nil => rfl
  | cons a t ih =>
    simp only [List.dropWhile_cons, h a (by simp), if_true]
    exact ih fun c hc => h c (by simp [hc])

theorem takeWhile_append_cons {α : Type} (p : α → Bool) (l1 : List α) (c : α)
    (l2 : List α) (h1 : ∀ x ∈ l1, p x = true) (hc : p c = false) :
    (l1 ++ c :: l2).takeWhile p = l1 := by
  induction l1 with
  | nil => simp [List.takeWhile_cons, hc]
  | cons a t ih =>
    simp only [List.cons_append, List.takeWhile_cons, h1 a (by simp)]
    exact congrArg _ (ih fun x hx => h1 x (by simp [hx]))

theorem dropWhile_append_cons {α : Type} (p : α → Bool) (l1 : List α) (c : α)
    (l2 : List α) (h1 : ∀ x ∈ l1, p x = true) (hc : p c = false) :
    (l1 ++ c :: l2).dropWhile p = c :: l2 := by
  induction l1 with
  | nil => simp [List.dropWhile_cons, hc]
  | cons a t ih =>
    simp only [List.cons_append, List.dropWhile_cons, h1 a (by simp), if_true]
    exact ih fun x hx => h1 x (by simp [hx])

/-- A decimal digit is never regex whitespace. -/
theorem not_ws_of_isDigit (c : Char) (h : c.isDigit = true) : isPyWs c = false := by
  cases hw : isPyWs c with
  | false => rfl
  | true =>
    exfalso
    simp only [isPyWs, Bool.or_eq_true, decide_eq_true_eq] at hw
    rcases hw with ((((h1 | h1) | h1) | h1) | h1) | h1 <;> subst h1 <;>
      exact absurd h (by decide)

theorem skipWs_cons_false (c : Char) (l : List Char) (h : isPyWs c = false) :
    skipWs (c :: l) = c :: l := by
  simp [skipWs, List.dropWhile_cons, h]

theorem expectChar_cons_self (c : Char) (l : List Char) :
    expectChar c (c :: l) = some l := by
  simp [expectChar]

theorem readDigitRun_cons_digits (d : Char) (t : List Char) (c : Char) (l2 : List Char)
    (hd : d.isDigit = true) (ht : ∀ x ∈ t, x.isDigit = true) (hc : c.isDigit = false) :
    readDigitRun (d :: (t ++ c :: l2)) = some (digitsToNat (d :: t), c :: l2) := by
  have hall : ∀ x ∈ d :: t, x.isDigit = true := by
    intro x hx
    rcases List.mem_cons.mp hx with rfl | hx2
    · exact hd
    · exact ht x hx2
  have h1 : ((d :: t) ++ c :: l2).takeWhile Char.isDigit = d :: t :=
    takeWhile_append_cons _ _ _ _ hall hc
  have h2 : ((d :: t) ++ c :: l2).dropWhile Char.isDigit = c :: l2 :=
    dropWhile_append_cons _ _ _ _ hall hc
  rw [show d :: (t ++ c :: l2) = (d :: t) ++ c :: l2 from rfl]
  unfold readDigitRun
  rw [h1, h2]

theorem readDigitRun_all_digits (d : Char) (t : List Char)
    (hd : d.isDigit = true) (ht : ∀ x ∈ t, x.isDigit = true) :
    readDigitRun (d :: t) = some (digitsToNat (d :: t), []) := by
  have hall : ∀ x ∈ d :: t, x.isDigit = true := by
    intro x hx
    rcases List.mem_cons.mp hx with rfl | hx2
    · exact hd
    · exact ht x hx2
  unfold readDigitRun
  rw [takeWhile_all _ _ hall, dropWhile_all _ _ hall]

set_option maxRecDepth 4096 in
/-- Format `f'{n:02x}'` for a channel value below 256 is exactly the two hex
digits of `n`. -/
theorem hex2chars_two_digits : ∀ n, n < 256 →
    hex2chars n = [Nat.digitChar (n / 16), Nat.digitChar (n % 16)] := by decide

/-- The canonical shape of an `rgb(...)`/`rgba(...)` color value with
no embedded whitespace: three digit runs separated by commas, with an
arbitrary ignored remainder (e.g. an alpha component) after the third
run. -/
def rgbForm (hasA : Bool) (ds1 ds2 ds3 tail : List Char) : List Char :=
  'r' :: 'g' :: 'b' :: ((if hasA then ['a'] else []) ++
    '(' :: (ds1 ++ ',' :: (ds2 ++ ',' :: (ds3 ++ tail))))

/-- The regex captures the three leading integer channels of an
`rgb(...)`/`rgba(...)` value and ignores everything after the third
run — in particular any alpha component. -/
theorem rgbMatch_form (hasA : Bool) (d1 d2 d3 : Char) (t1 t2 t3 tail : List Char)
    (hd1 : d1.isDigit = true) (ht1 : ∀ x ∈ t1, x.isDigit = true)
    (hd2 : d2.isDigit = true) (ht2 : ∀ x ∈ t2, x.isDigit = true)
    (hd3 : d3.isDigit = true) (ht3 : ∀ x ∈ t3, x.isDigit = true)
    (htail : ∀ c rest, tail = c :: rest → c.isDigit = false) :
    rgbMatch (rgbForm hasA (d1 :: t1) (d2 :: t2) (d3 :: t3) tail)
      = some (digitsToNat (d1 :: t1), digitsToNat (d2 :: t2), digitsToNat (d3 :: t3)) := by
  have hw1 : isPyWs d1 = false := not_ws_of_isDigit d1 hd1
  have hw2 : isPyWs d2 = false := not_ws_of_isDigit d2 hd2
  have hw3 : isPyWs d3 = false := not_ws_of_isDigit d3 hd3
  have hrd1 : readDigitRun (d1 :: (t1 ++ ',' :: (d2 :: (t2 ++ ',' :: (d3 :: (t3 ++ tail))))))
      = some (digitsToNat (d1 :: t1), ',' :: (d2 :: (t2 ++ ',' :: (d3 :: (t3 ++ tail))))) :=
    readDigitRun_cons_digits d1 t1 ',' _ hd1 ht1 (by decide)
  have hrd2 : readDigitRun (d2 :: (t2 ++ ',' :: (d3 :: (t3 ++ tail))))
      = some (digitsToNat (d2 :: t2), ',' :: (d3 :: (t3 ++ tail))) :=
    readDigitRun_cons_digits d2 t2 ',' _ hd2 ht2 (by decide)
  have hrd3 : ∃ r3, readDigitRun (d3 :: (t3 ++ tail))
      = some (digitsToNat (d3 :: t3), r3) := by
    cases htl : tail with
    | nil =>
      refine ⟨[], ?_⟩
      rw [List.append_nil]
      exact readDigitRun_all_digits d3 t3 hd3 ht3
    | cons c rest =>
      exact ⟨c :: rest, readDigitRun_cons_digits d3 t3 c rest hd3 ht3 (htail c rest htl)⟩
  obtain ⟨r3, hrd3⟩ := hrd3
  cases hasA with
  | false =>
    show rgbMatch ('r' :: 'g' :: 'b' :: '(' ::
      (d1 :: (t1 ++ ',' :: (d2 :: (t2 ++ ',' :: (d3 :: (t3 ++ tail))))))) = _
    simp [rgbMatch, expectChar_cons_self, skipWs_cons_false, hw1, hw2, hw3,
      hrd1, hrd2, hrd3,
      (show isPyWs '(' = false by decide), (show isPyWs ',' = false by decide)]
  | true =>
    show rgbMatch ('r' :: 'g' :: 'b' :: 'a' :: '(' ::
      (d1 :: (t1 ++ ',' :: (d2 :: (t2 ++ ',' :: (d3 :: (t3 ++ tail))))))) = _
    simp [rgbMatch, expectChar_cons_self, skipWs_cons_false, hw1, hw2, hw3,
      hrd1, hrd2, hrd3,
      (show isPyWs '(' = false by decide), (show isPyWs ',' = false by decide)]

/-- Modelled from the spec: the two-digit lowercase hexadecimal
encoding of one color channel (meaningful for channel values up to
255). -/
def twoDigitHex (n : Nat) : List Char :=
  [Nat.digitChar (n / 16), Nat.digitChar (n % 16)]

/-- Claim C7.  `_parse_color` maps `"rgb(227, 6, 19)"` to `"#e30613"`
and `"#E30613"` to `"#e30613"`; more generally it returns hexadecimal
input stripped and lower-cased, and for `rgb(...)`/`rgba(...)` input
(three comma-separated digit runs, channels at most 255) it re-encodes
the three leading integer channels as two-digit lowercase hex each,
discarding anything after the third channel — in particular an alpha
component. -/
theorem C7_parse_color_normalizes :
    parse_color "rgb(227, 6, 19)" = "#e30613" ∧
    parse_color "#E30613" = "#e30613" ∧
    (∀ (s : String) (t : List Char),
      (stripList s.data).map pyLower = '#' :: t →
      parse_color s = String.mk ('#' :: t)) ∧
    (∀ (s : String) (hasA : Bool) (d1 d2 d3 : Char) (t1 t2 t3 tail : List Char),
      (stripList s.data).map pyLower
        = rgbForm hasA (d1 :: t1) (d2 :: t2) (d3 :: t3) tail →
      d1.isDigit = true → (∀ x ∈ t1, x.isDigit = true) →
      d2.isDigit = true → (∀ x ∈ t2, x.isDigit = true) →
      d3.isDigit = true → (∀ x ∈ t3, x.isDigit = true) →
      (∀ c rest, tail = c :: rest → c.isDigit = false) →
      digitsToNat (d1 :: t1) ≤ 255 → digitsToNat (d2 :: t2) ≤ 255 →
      digitsToNat (d3 :: t3) ≤ 255 →
      parse_color s = String.mk ('#' ::
        (twoDigitHex (digitsToNat (d1 :: t1)) ++
         twoDigitHex (digitsToNat (d2 :: t2)) ++
         twoDigitHex (digitsToNat (d3 :: t3))))) := by
  refine ⟨by decide, by decide, ?_, ?_⟩
  · intro s t h
    simp [parse_color, h]
  · intro s hasA d1 d2 d3 t1 t2 t3 tail hnorm hd1 ht1 hd2 ht2 hd3 ht3 htail hb1 hb2 hb3
    have hm := rgbMatch_form hasA d1 d2 d3 t1 t2 t3 tail hd1 ht1 hd2 ht2 hd3 ht3 htail
    have e1 := hex2chars_two_digits (digitsToNat (d1 :: t1)) (by omega)
    have e2 := hex2chars_two_digits (digitsToNat (d2 :: t2)) (by omega)
    have e3 := hex2chars_two_digits (digitsToNat (d3 :: t3)) (by omega)
    have hhead : (rgbForm hasA (d1 :: t1) (d2 :: t2) (d3 :: t3) tail).head?
        = some 'r' := rfl
    simp only [parse_color, hnorm, hhead]
    rw [if_neg (by decide)]
    rw [hm]
    simp [twoDigitHex, e1, e2, e3]

/-- Witness for C7: hexadecimal input `"#AB"` is lower-cased, and
`"rgba(0,110,19,0.5)"` is parsed into channels 0, 110, 19 with the
alpha component discarded. -/
theorem C7_parse_color_normalizes_witness :
    parse_color "#AB" = String.mk ('#' :: ['a', 'b']) ∧
    parse_color "rgba(0,110,19,0.5)" = String.mk ('#' ::
      (twoDigitHex (digitsToNat ['0']) ++ twoDigitHex (digitsToNat ['1', '1', '0']) ++
       twoDigitHex (digitsToNat ['1', '9']))) := by
  constructor
  · exact C7_parse_color_normalizes.2.2.1 "#AB" ['a', 'b'] (by decide)
  · exact C7_parse_color_normalizes.2.2.2 "rgba(0,110,19,0.5)" true '0' '1' '1'
      [] ['1', '0'] ['9'] (',' :: '0' :: '.' :: '5' :: ')' :: [])
      (by decide) (by decide) (by decide) (by decide) (by decide) (by decide)
      (by decide)
      (by intro c rest h; injection h with hc hr; subst hc; decide)
      (by decide) (by decide) (by decide)

/-- Each cycle visits every configured server: one alert flag per
server, in order. -/
theorem checkAll_flags_length (es : EmailSender) (base : String) (st : LastStatus)
    (l : List (Server × Observation)) :
    ((checkAll es base st l).2).length = l.length := by
  induction l generalizing st with
  | nil => rfl
  | cons p rest ih =>
    cases p with
    | mk sv o => simp only [checkAll, List.length_cons, ih]

/-- Claim C8 counterexample.  When authentication fails in `--test`
mode, the process exits with status 0, not a non-zero status:
`test` merely logs and returns (prtg_monitor.py lines 331-333), no
exception reaches the `sys.exit(1)` handlers of `main` (lines
371-376), and the interpreter exits cleanly.  (It also runs zero
cycles rather than one.) -/
theorem C8_counterexample :
    main_test esOk "" [(svA, obsErr)] .authFailed = (0, 0) ∧
    ¬ (main_test esOk "" [(svA, obsErr)] .authFailed).2 ≠ 0 := by
  refine ⟨by decide, by decide⟩

/-- Claim C8, amended.  In single-pass (`--test`) mode the program runs
exactly one cycle over all configured entities and exits with status 0
when everything succeeds; when authentication fails it runs no cycle
and still exits with status 0 (only an exception such as a missing
configuration file produces a non-zero exit, via `sys.exit(1)`). -/
theorem C8_test_mode_exit (es : EmailSender) (base : String)
    (servers : List (Server × Observation)) :
    main_test es base servers .authOk = (1, 0) ∧
    main_test es base servers .authFailed = (0, 0) ∧
    main_test es base servers .configMissing = (0, 1) ∧
    ((test_run true es base servers).2.2).length = servers.length := by
  refine ⟨rfl, rfl, rfl, ?_⟩
  simp only [test_run, if_pos rfl]
  exact checkAll_flags_length es base emptyStatus servers

end PRTG
